import Mathlib

/-!
Shallow embedding of the gen-anime-manga story-generation pipeline
(src/backend/services/nlp_engine.py, src/backend/openai_generator.py,
src/backend/story_generator.py, src/backend/services/layout_engine.py),
together with theorems settling the frozen claims about it.

The Python process-global `random` generator is modelled as an abstract
stream of natural numbers (`RState`); every primitive consumes the head
of the stream.  `random.random()` is modelled in per-mille units (a draw
in `[0, 1000)`), so a comparison `random.random() < 0.3` becomes
`draw < 300`; every outcome of the real float draw is realisable in the
model and vice versa, and no claim depends on the numeric distribution.
Fallible Python code (statements that can raise) is modelled with
`Option`: a `none` result marks the exception propagating out of the
translated function.
-/

/-- The state of the process-wide pseudo-random generator: the stream of
future draws, consumed from the head.  An exhausted stream keeps
yielding 0 (irrelevant: theorems quantify over all streams). -/
def RState : Type := List Nat

instance : DecidableEq RState := inferInstanceAs (DecidableEq (List Nat))

/-- Model of `random.random()` in per-mille units: a draw in `[0,1000)`. -/
def pyRand (s : RState) : Nat × RState :=
  (s.headD 0 % 1000, s.tail)

/-- Model of `random.randint(a, b)` (both bounds inclusive). -/
def pyRandint (a b : Nat) (s : RState) : Nat × RState :=
  (a + s.headD 0 % (b - a + 1), s.tail)

/-- Model of `random.choice(xs)` for a list of strings.  Python raises
`IndexError` on an empty list; every call site in the embedded code is
guarded by a non-emptiness fact, so the `""` default is unreachable
there. -/
def pyChoice (xs : List String) (s : RState) : String × RState :=
  (xs.getD (s.headD 0 % xs.length) "", s.tail)

/-- Selection without replacement: one draw per selected element, the
chosen element removed from the pool.  Helper for `pySample`. -/
def pySampleAux : Nat → List String → RState → List String × RState
  | 0, _, s => ([], s)
  | k + 1, xs, s =>
    let x := xs.getD (s.headD 0 % xs.length) ""
    let r := pySampleAux k (xs.erase x) s.tail
    (x :: r.1, r.2)

/-- Model of `random.sample(xs, k)`: `none` when `k > len(xs)`
(Python raises `ValueError: Sample larger than population`). -/
def pySample (xs : List String) (k : Nat) (s : RState) : Option (List String) × RState :=
  if k ≤ xs.length then
    let r := pySampleAux k xs s
    (some r.1, r.2)
  else (none, s)

/-- Thread the RNG state through a list traversal (the Python `for`
loops that build scenes and dialogue lists). -/
def mapState {α β : Type} (f : α → RState → β × RState) : List α → RState → List β × RState
  | [], s => ([], s)
  | a :: as, s =>
    let b := f a s
    let r := mapState f as b.2
    (b.1 :: r.1, r.2)

/-! ### Generic lemmas about the RNG primitives -/

theorem pyChoice_mem (xs : List String) (s : RState) (h : xs ≠ []) :
    (pyChoice xs s).1 ∈ xs := by
  have hl : 0 < xs.length := List.length_pos.2 h
  have hi : s.headD 0 % xs.length < xs.length := Nat.mod_lt _ hl
  simp only [pyChoice, List.getD_eq_getElem?_getD, List.getElem?_eq_getElem hi,
    Option.getD_some]
  exact List.getElem_mem hi

theorem pySampleAux_spec : ∀ (k : Nat) (xs : List String) (s : RState),
    xs.Nodup → k ≤ xs.length →
    (pySampleAux k xs s).1.length = k ∧ (pySampleAux k xs s).1.Nodup ∧
      ∀ y ∈ (pySampleAux k xs s).1, y ∈ xs := by
  intro k
  induction k with
  | zero => intro xs s _ _; simp [pySampleAux]
  | succ n ih =>
    intro xs s hnd hk
    have hl : 0 < xs.length := Nat.lt_of_lt_of_le (Nat.succ_pos n) hk
    have hi : s.headD 0 % xs.length < xs.length := Nat.mod_lt _ hl
    have hxmem : xs.getD (s.headD 0 % xs.length) "" ∈ xs := by
      rw [List.getD_eq_getElem?_getD, List.getElem?_eq_getElem hi, Option.getD_some]
      exact List.getElem_mem hi
    have herlen : (xs.erase (xs.getD (s.headD 0 % xs.length) "")).length = xs.length - 1 := by
      simpa using List.length_erase_of_mem hxmem
    have hle : n ≤ (xs.erase (xs.getD (s.headD 0 % xs.length) "")).length := by omega
    have hernd := List.Nodup.erase (xs.getD (s.headD 0 % xs.length) "") hnd
    obtain ⟨hlen, hnd', hmem⟩ := ih _ s.tail hernd hle
    refine ⟨?_, ?_, ?_⟩
    · simp only [pySampleAux, List.length_cons, hlen]
    · simp only [pySampleAux, List.nodup_cons]
      exact ⟨fun hcon => (List.Nodup.not_mem_erase hnd) (hmem _ hcon), hnd'⟩
    · intro y hy
      simp only [pySampleAux, List.mem_cons] at hy
      rcases hy with rfl | hy
      · exact hxmem
      · exact List.mem_of_mem_erase (hmem y hy)

theorem pySample_spec (xs : List String) (k : Nat) (s : RState)
    (hnd : xs.Nodup) (hk : k ≤ xs.length) :
    ∃ ys, (pySample xs k s).1 = some ys ∧ ys.length = k ∧ ys.Nodup ∧
      ∀ y ∈ ys, y ∈ xs := by
  obtain ⟨h1, h2, h3⟩ := pySampleAux_spec k xs s hnd hk
  exact ⟨(pySampleAux k xs s).1, by simp [pySample, hk], h1, h2, h3⟩

theorem mapState_length {α β : Type} (f : α → RState → β × RState) :
    ∀ (l : List α) (s : RState), (mapState f l s).1.length = l.length := by
  intro l
  induction l with
  | nil => intro s; simp [mapState]
  | cons a as ih => intro s; simp [mapState, ih]

theorem mapState_mem {α β : Type} (f : α → RState → β × RState) (P : β → Prop) :
    ∀ (l : List α) (s : RState), (∀ a (s' : RState), a ∈ l → P ((f a s').1)) →
    ∀ b ∈ (mapState f l s).1, P b := by
  intro l
  induction l with
  | nil => intro s _ b hb; simp [mapState] at hb
  | cons a as ih =>
    intro s hP b hb
    simp only [mapState, List.mem_cons] at hb
    rcases hb with rfl | hb
    · exact hP a s (List.mem_cons_self a as)
    · exact ih _ (fun a' s' ha' => hP a' s' (List.mem_cons_of_mem _ ha')) b hb

theorem mapState_map {α β γ : Type} (f : α → RState → β × RState) (g : β → γ) (h : α → γ)
    (hg : ∀ a (s : RState), g ((f a s).1) = h a) :
    ∀ (l : List α) (s : RState), (mapState f l s).1.map g = l.map h := by
  intro l
  induction l with
  | nil => intro s; simp [mapState]
  | cons a as ih => intro s; simp [mapState, hg, ih]

/-- The identity `(List.range n).map (· + 1) = [1, 2, ..., n]`: the contiguous 1-based
id sequence. -/
theorem range_map_succ_eq_range' (n : Nat) :
    (List.range n).map (fun k => k + 1) = List.range' 1 n := by
  induction n with
  | zero => simp
  | succ m ih =>
    rw [List.range_succ, List.map_append, ih, List.range'_1_concat]
    simp [Nat.add_comm]

/-! ### String helpers mirroring the Python string methods used -/

/-- Word characters of the Python regex word class (ASCII fragment; the embedded
keyword tables and prompts are ASCII). -/
def isWordChar (c : Char) : Bool := c.isAlphanum || c = '_'

/-- Split a character list into maximal runs of word characters
(the regex findall over word runs used by the analyzer). -/
def wordsAux : List Char → List Char → List (List Char)
  | [], acc => if acc = [] then [] else [acc.reverse]
  | c :: cs, acc =>
    if isWordChar c then wordsAux cs (c :: acc)
    else if acc = [] then wordsAux cs []
    else acc.reverse :: wordsAux cs []

/-- Model of the regex word-token extraction applied to the lower-cased
prompt: the maximal word-character runs. -/
def pyWords (s : String) : List String :=
  (wordsAux s.toLower.toList []).map (fun l => String.mk l)

/-- Python `needle in hay` substring test. -/
def strContainsSub (hay needle : String) : Bool :=
  (List.range (hay.toList.length + 1)).any
    (fun i => needle.toList.isPrefixOf (hay.toList.drop i))

/-- Python `str.capitalize()`: first character upper-cased, rest
lower-cased. -/
def pyCapitalize (t : String) : String :=
  match t.toList with
  | [] => ""
  | c :: cs => String.mk (c.toUpper :: cs.map Char.toLower)

/-- Helper for `pyTitle`: tracks whether the previous character was a
letter. -/
def pyTitleAux : List Char → Bool → List Char
  | [], _ => []
  | c :: cs, prevAlpha =>
    (if c.isAlpha then (if prevAlpha then c.toLower else c.toUpper) else c) ::
      pyTitleAux cs c.isAlpha

/-- Python `str.title()`: upper-case every letter that follows a
non-letter, lower-case the other letters (ASCII fragment). -/
def pyTitle (t : String) : String := String.mk (pyTitleAux t.toList false)

/-- Python replace of every exclamation mark by a period; a
single-character replacement is a character-wise map. -/
def replaceBang (t : String) : String :=
  String.mk (t.toList.map (fun c => if c = '!' then '.' else c))

/-- Split a character list at commas; the Python split on a comma never
returns an empty list. -/
def splitCommaChars : List Char → List (List Char)
  | [] => [[]]
  | c :: rest =>
    let r := splitCommaChars rest
    if c = ',' then [] :: r
    else
      match r with
      | [] => [[c]]
      | h :: t => (c :: h) :: t

/-- Model of the Python string split on a comma separator. -/
def pySplitComma (s : String) : List String :=
  (splitCommaChars s.toList).map (fun l => String.mk l)

theorem splitCommaChars_ne_nil : ∀ l : List Char, splitCommaChars l ≠ [] := by
  intro l
  induction l with
  | nil => simp [splitCommaChars]
  | cons c rest ih =>
    simp only [splitCommaChars]
    split
    · simp
    · cases hr : splitCommaChars rest with
      | nil => exact absurd hr ih
      | cons h t => simp

theorem pySplitComma_ne_nil (s : String) : pySplitComma s ≠ [] := by
  simp only [pySplitComma, ne_eq, List.map_eq_nil_iff]
  exact splitCommaChars_ne_nil _

/-- The 03d format specifier: decimal rendering left-padded with zeros
to width 3. -/
def zeroPad3 (i : Nat) : String :=
  let t := toString i
  if 3 ≤ t.length then t else String.mk (List.replicate (3 - t.length) '0') ++ t

/-! ### Data model -/

/-- One dialogue balloon: `{"character": ..., "text": ...}`. -/
structure DialogueLine where
  character : String
  text : String
deriving DecidableEq, Repr

/-- One scene record.  The NLP path also stores `scene_type` and
`genre`; the unhinged/local paths omit those keys, modelled as `none`. -/
structure Scene where
  scene_id : Nat
  description : String
  dialogue : List DialogueLine
  scene_type : Option String := none
  genre : Option String := none
deriving DecidableEq, Repr

/-- A full story result.  `genre`, `themes` and `characters` are present
only on the NLP path.  The `metadata` dictionary is informational only
(wall-clock timestamp, counts) and is not modelled; no claim mentions
it. -/
structure Story where
  title : String
  summary : String
  scenes : List Scene
  genre : Option String := none
  themes : Option (List String) := none
  characters : Option (List String) := none
deriving DecidableEq, Repr

/-- A character profile from `generate_character_traits`. -/
structure CharacterProfile where
  name : String
  traits : List String
  primary_trait : String
deriving DecidableEq, Repr

/-- Result of `StoryAnalyzer.analyze_prompt`. -/
structure Analysis where
  primary_genre : String
  genres : List (String × Nat)
  primary_emotion : String
  emotions : List (String × Nat)
  themes : List String
  word_count : Nat
deriving DecidableEq, Repr

/-- The `characters` request argument is duck-typed in the source: it
may be a comma-separated string or a list of names (or absent, modelled
by wrapping in `Option`). -/
inductive CharactersArg where
  | str : String → CharactersArg
  | list : List String → CharactersArg
deriving DecidableEq, Repr

/-! ### nlp_engine.py — StoryAnalyzer tables -/

/-- Table `StoryAnalyzer.genre_keywords` (8 genres). -/
def genre_keywords : List (String × List String) :=
  [("action", ["fight", "battle", "combat", "war", "conflict", "violence", "chase", "escape"]),
   ("romance", ["love", "relationship", "heart", "kiss", "date", "romantic", "passion", "affection"]),
   ("mystery", ["mystery", "detective", "crime", "murder", "investigation", "clue", "secret", "hidden"]),
   ("fantasy", ["magic", "wizard", "dragon", "spell", "enchanted", "mystical", "supernatural", "realm"]),
   ("horror", ["horror", "scary", "fear", "nightmare", "ghost", "demon", "terror", "haunted"]),
   ("comedy", ["funny", "humor", "joke", "laugh", "comedy", "amusing", "hilarious", "witty"]),
   ("drama", ["emotional", "tragedy", "serious", "dramatic", "intense", "conflict", "struggle"]),
   ("sci-fi", ["space", "future", "technology", "robot", "alien", "cyberpunk", "dystopian", "utopian"])]

/-- Table `StoryAnalyzer.emotion_keywords` (6 emotions). -/
def emotion_keywords : List (String × List String) :=
  [("angry", ["furious", "rage", "mad", "irritated", "annoyed", "hostile"]),
   ("sad", ["depressed", "melancholy", "sorrowful", "grief", "despair", "heartbroken"]),
   ("happy", ["joyful", "cheerful", "excited", "delighted", "euphoric", "content"]),
   ("fearful", ["scared", "terrified", "anxious", "worried", "nervous", "panicked"]),
   ("surprised", ["shocked", "amazed", "astonished", "stunned", "bewildered"]),
   ("determined", ["resolute", "focused", "committed", "driven", "persistent"])]

/-- Count of tokens falling in a keyword set, duplicates counted
(the generator-sum in the source). -/
def countIn (words : List String) (keywords : List String) : Nat :=
  (words.filter (fun w => w ∈ keywords)).length

/-- The score dictionary: table order preserved, only positive scores
kept (matching dict insertion order in the loop). -/
def positiveScores (words : List String) (table : List (String × List String)) :
    List (String × Nat) :=
  (table.map (fun p => (p.1, countIn words p.2))).filter (fun q => 0 < q.2)

/-- Python max over the score dict keys with the score as key function:
the first key attaining the maximal score, or the default for an empty
dict. -/
def firstMaxKey (l : List (String × Nat)) (dflt : String) : String :=
  match l with
  | [] => dflt
  | p :: rest => (rest.foldl (fun best q => if best.2 < q.2 then q else best) p).1

/-- The theme stoplist of `analyze_prompt`. -/
def themeStopWords : List String := ["story", "about", "character"]

/-- Model of `StoryAnalyzer.analyze_prompt`. -/
def analyze_prompt (prompt : String) : Analysis :=
  let words := pyWords prompt
  let gs := positiveScores words genre_keywords
  let es := positiveScores words emotion_keywords
  { primary_genre := firstMaxKey gs "drama"
    genres := gs
    primary_emotion := firstMaxKey es "neutral"
    emotions := es
    themes := (words.filter (fun w => 4 < w.length ∧ w ∉ themeStopWords)).take 5
    word_count := words.length }

/-- The genre trait table of `generate_character_traits` (5 traits per
genre). -/
def genre_traits : List (String × List String) :=
  [("action", ["brave", "strong", "determined", "skilled", "fearless"]),
   ("romance", ["charming", "passionate", "caring", "romantic", "sensitive"]),
   ("mystery", ["observant", "intelligent", "analytical", "suspicious", "methodical"]),
   ("fantasy", ["magical", "wise", "mystical", "powerful", "ancient"]),
   ("horror", ["haunted", "troubled", "paranoid", "survivor", "cursed"]),
   ("comedy", ["funny", "witty", "clumsy", "optimistic", "cheerful"]),
   ("drama", ["complex", "emotional", "conflicted", "deep", "troubled"]),
   ("sci-fi", ["technological", "futuristic", "logical", "innovative", "alien"])]

/-- The generic fallback trait table used for an unknown genre — it has
only TWO entries. -/
def fallbackTraits : List String := ["interesting", "unique"]

/-- Model of `StoryAnalyzer.generate_character_traits`: samples 3 distinct traits
from the genre table (or the 2-entry fallback).  `none` models the
ValueError raised by sampling 3 from a 2-element population. -/
def generate_character_traits (character_name genre : String) (s : RState) :
    Option CharacterProfile × RState :=
  let table := (List.lookup genre genre_traits).getD fallbackTraits
  let r := pySample table 3 s
  match r.1 with
  | some traits =>
    (some { name := character_name, traits := traits,
            primary_trait := traits.headD "mysterious" }, r.2)
  | none => (none, r.2)

/-! ### nlp_engine.py — enhance_dialogue -/

/-- The `emotion_modifiers` table of `enhance_dialogue`. -/
def emotion_modifiers : List (String × List String) :=
  [("angry", ["Damn it!", "This is ridiculous!", "I can\x27t believe this!"]),
   ("sad", ["*sighs*", "I just... I don\x27t know anymore.", "Why does this always happen?"]),
   ("happy", ["This is amazing!", "I can\x27t contain my excitement!", "Everything\x27s perfect!"]),
   ("fearful", ["I\x27m scared...", "What if something goes wrong?", "I have a bad feeling about this."]),
   ("surprised", ["What?!", "I can\x27t believe it!", "That\x27s impossible!"]),
   ("determined", ["I won\x27t give up!", "We can do this!", "Nothing will stop me!"])]

/-- The trait-based tail of `enhance_dialogue`: the source uses an
elif, so EITHER the witty suffix (p below 0.2) OR the serious
bang-to-period replacement (p below 0.2) applies, never both in one
call.  The draw for the witty branch happens only when the witty trait
is present, and the serious draw only when the witty condition as a
whole failed (Python short-circuit and elif semantics). -/
def trait_embellish (text : String) (character_traits : List String) (s : RState) :
    String × RState :=
  if "witty" ∈ character_traits then
    let r2 := pyRand s
    if r2.1 < 200 then (text ++ " *smirks*", r2.2)
    else if "serious" ∈ character_traits then
      let r3 := pyRand r2.2
      if r3.1 < 200 then (replaceBang text, r3.2) else (text, r3.2)
    else (text, r2.2)
  else if "serious" ∈ character_traits then
    let r3 := pyRand s
    if r3.1 < 200 then (replaceBang text, r3.2) else (text, r3.2)
  else (text, s)

/-- Model of `enhance_dialogue`: an optional emotion prefix (p below 0.3, and
the emotion must be a key of the modifier table — the random draw
happens first, the key test second, matching the source operand order),
followed by the elif trait embellishment. -/
def enhance_dialogue (text emotion : String) (character_traits : List String) (s : RState) :
    String × RState :=
  let r1 := pyRand s
  if r1.1 < 300 ∧ (List.lookup emotion emotion_modifiers).isSome then
    let p := pyChoice ((List.lookup emotion emotion_modifiers).getD []) r1.2
    trait_embellish (p.1 ++ " " ++ text) character_traits p.2
  else trait_embellish text character_traits r1.2

/-! ### nlp_engine.py — generate_story -/

/-- The characters normalization at the top of `generate_story`:
`not characters` (absent, empty list or empty string) gives the default
pair, a string is comma-split and trimmed. -/
def nlpNormalize : Option CharactersArg → List String
  | none => ["Protagonist", "Deuteragonist"]
  | some (.list []) => ["Protagonist", "Deuteragonist"]
  | some (.list l) => l
  | some (.str t) =>
    if t = "" then ["Protagonist", "Deuteragonist"]
    else (pySplitComma t).map String.trim

/-- The character-profile loop of `generate_story`: one
`generate_character_traits` call per character, stopping at the first
failure (the exception would propagate).  The association list keeps
insertion order; a duplicate name is overwritten on dict insert, which
`profileLookup` reproduces by scanning from the end. -/
def buildProfiles (chars : List String) (genre : String) (s : RState) :
    Option (List (String × CharacterProfile)) × RState :=
  match chars with
  | [] => (some [], s)
  | c :: rest =>
    let r := generate_character_traits c genre s
    match r.1 with
    | none => (none, r.2)
    | some pr =>
      let rr := buildProfiles rest genre r.2
      match rr.1 with
      | none => (none, rr.2)
      | some ps => (some ((c, pr) :: ps), rr.2)

/-- Python dict lookup on the profile dict (last insertion wins).  The
default is unreachable: every speaker is drawn from the inserted
character list. -/
def profileLookup (ps : List (String × CharacterProfile)) (speaker : String) :
    CharacterProfile :=
  (List.lookup speaker ps.reverse).getD
    { name := speaker, traits := [], primary_trait := "mysterious" }

/-- The genre-keyed `story_templates` of `generate_story` (only 4
genres; others fall back to the action entry). -/
def story_templates : List (String × List (String × String)) :=
  [("action",
    [("opening", "A tense situation unfolds"),
     ("rising", "The conflict escalates dramatically"),
     ("climax", "An intense battle determines the outcome"),
     ("resolution", "The dust settles and consequences are revealed")]),
   ("romance",
    [("opening", "Two characters meet under interesting circumstances"),
     ("rising", "Their relationship develops with complications"),
     ("climax", "A moment of truth tests their bond"),
     ("resolution", "Their feelings are finally resolved")]),
   ("mystery",
    [("opening", "A puzzling event occurs"),
     ("rising", "Clues are discovered and suspects emerge"),
     ("climax", "The truth is dramatically revealed"),
     ("resolution", "Justice is served and mysteries are solved")]),
   ("fantasy",
    [("opening", "A magical world is introduced"),
     ("rising", "Ancient powers awaken and quests begin"),
     ("climax", "Epic magical confrontation"),
     ("resolution", "The realm\x27s fate is decided")])]

/-- The action template row, the fallback of the template lookup. -/
def actionTemplate : List (String × String) :=
  [("opening", "A tense situation unfolds"),
   ("rising", "The conflict escalates dramatically"),
   ("climax", "An intense battle determines the outcome"),
   ("resolution", "The dust settles and consequences are revealed")]

/-- The scene-type formula of `generate_story`: opening at index 0,
resolution at the last index, rising before 70 percent of the total,
climax after.  The source compares the integer index against the float
product `num_scenes * 0.7`; for the integer indices involved the
comparison agrees with the exact rational one, modelled as
`10 * i < 7 * n`. -/
def nlpSceneType (n i : Nat) : String :=
  if i = 0 then "opening"
  else if i = n - 1 then "resolution"
  else if 10 * i < 7 * n then "rising"
  else "climax"

/-- The scene-type-keyed dialogue bank built inside the dialogue loop;
the opening entry interpolates a freshly drawn theme word
(or the literal "situation" when there are no themes). -/
def dialogueOptions (themeWord : String) : List (String × List String) :=
  [("opening",
    ["Something about this " ++ themeWord ++ " feels different.",
     "I have a feeling our lives are about to change.",
     "This is either the beginning of something great or terrible."]),
   ("rising",
    ["Things are getting more complicated than I expected.",
     "We need to be careful about our next move.",
     "I\x27m starting to understand what\x27s really happening here."]),
   ("climax",
    ["This is it - everything comes down to this moment!",
     "I won\x27t let everything we\x27ve worked for be destroyed!",
     "The truth changes everything!"]),
   ("resolution",
    ["Finally, we can see the bigger picture.",
     "This ending is just a new beginning.",
     "We\x27ve learned so much from this experience."])]

/-- The rising entry of the dialogue bank, the `.get` fallback
(unreachable: every scene type is a key). -/
def risingOptions : List String :=
  ["Things are getting more complicated than I expected.",
   "We need to be careful about our next move.",
   "I\x27m starting to understand what\x27s really happening here."]

/-- One dialogue line of the inner loop of `generate_story`: draw the
speaker, look up the profile, build the bank (drawing a theme word when
themes exist), draw the base line, then run `enhance_dialogue`. -/
def nlpDialogue (analysis : Analysis) (chars : List String)
    (profiles : List (String × CharacterProfile)) (scene_type : String)
    (_j : Nat) (s : RState) : DialogueLine × RState :=
  let sp := pyChoice chars s
  let profile := profileLookup profiles sp.1
  let tw := if analysis.themes ≠ [] then pyChoice analysis.themes sp.2
            else ("situation", sp.2)
  let pool := (List.lookup scene_type (dialogueOptions tw.1)).getD risingOptions
  let bt := pyChoice pool tw.2
  let en := enhance_dialogue bt.1 analysis.primary_emotion profile.traits bt.2
  ({ character := sp.1, text := en.1 }, en.2)

/-- Description and dialogue of scene `i` of `generate_story`. -/
def nlpSceneBody (prompt : String) (analysis : Analysis) (chars : List String)
    (profiles : List (String × CharacterProfile)) (n i : Nat) (s : RState) :
    (String × List DialogueLine) × RState :=
  let stype := nlpSceneType n i
  let template := (List.lookup analysis.primary_genre story_templates).getD actionTemplate
  let base := (List.lookup stype template).getD "The story continues to unfold"
  let th := if analysis.themes ≠ [] then pyChoice analysis.themes s
            else ("The plot", s)
  let description :=
    base ++ " as " ++ prompt ++ " develops further. " ++ th.1 ++
      " becomes central to the narrative."
  let nd := pyRandint 2 4 th.2
  let dlg := mapState (nlpDialogue analysis chars profiles stype) (List.range nd.1) nd.2
  ((description, dlg.1), dlg.2)

/-- Scene `i` of `generate_story`: the body plus the id/type/genre
fields appended on `scenes.append`. -/
def nlpScene (prompt : String) (analysis : Analysis) (chars : List String)
    (profiles : List (String × CharacterProfile)) (n : Nat) (i : Nat) (s : RState) :
    Scene × RState :=
  let b := nlpSceneBody prompt analysis chars profiles n i s
  ({ scene_id := i + 1, description := b.1.1, dialogue := b.1.2,
     scene_type := some (nlpSceneType n i), genre := some analysis.primary_genre }, b.2)

/-- Model of `nlp_engine.generate_story`: analysis, character normalization,
profile generation (`none` on a trait failure, where the ValueError
would propagate), then 8 to 12 scenes. -/
def generate_story (prompt : String) (characters : Option CharactersArg) (s : RState) :
    Option (List Scene) × RState :=
  let analysis := analyze_prompt prompt
  let chars := nlpNormalize characters
  let bp := buildProfiles chars analysis.primary_genre s
  match bp.1 with
  | none => (none, bp.2)
  | some profiles =>
    let num := pyRandint 8 12 bp.2
    let sc := mapState (nlpScene prompt analysis chars profiles num.1) (List.range num.1) num.2
    (some sc.1, sc.2)

/-! ### openai_generator.py — OpenAIGenerator -/

/-- The settings bank of `_generate_fallback_unhinged_story`. -/
def fb_settings : List String :=
  ["a dystopian cyberpunk hellscape", "an underground death cult compound",
   "a cannibalistic high school", "a post-apocalyptic torture chamber",
   "a demon-infested space station", "a psychotic AI-controlled city",
   "a blood-soaked gladiator arena", "a haunted psychiatric asylum",
   "a yakuza-controlled red light district", "a zombie-infested shopping mall",
   "a cult\x27s sacrificial temple", "a serial killer\x27s playground"]

/-- The plot-point bank of `_generate_fallback_unhinged_story`. -/
def fb_plot_points : List String :=
  ["brutally murders their best friend", "discovers they\x27re actually the villain",
   "eats human flesh for the first time", "betrays everyone who trusted them",
   "becomes a psychotic killer", "sells their soul to demons",
   "tortures innocent people for fun", "starts a genocidal war",
   "becomes addicted to violence",
   "discovers they\x27re in a simulation and breaks it",
   "time travels to kill their past self", "becomes god and destroys reality"]

/-- The swear bank of `_generate_fallback_unhinged_story`. -/
def fb_swears : List String :=
  ["Fuck", "Shit", "Damn", "Hell", "Bastard", "Bitch", "Asshole", "Motherfucker",
   "Son of a bitch", "What the fuck", "Holy shit", "Goddamn", "Fucking hell",
   "Piece of shit"]

/-- The middle-scene type bank of `_generate_fallback_unhinged_story`. -/
def fb_scene_types : List String :=
  ["violence", "betrayal", "psychological_break", "meta_commentary", "chaos"]

/-- The post-branch 40 percent extra dialogue of the fallback story:
one swear draw happens while the line bank literal is built, then the
speaker and line draws. -/
def fbAfterExtra (chars : List String) (sc : Scene) (s : RState) : Scene × RState :=
  let r := pyRand s
  if 400 < r.1 then
    let w := pyChoice fb_swears r.2
    let chaos_lines : List String :=
      [w.1 ++ "! This is completely insane!",
       "I think I\x27m losing my goddamn mind!",
       "Why does everything have to be so fucked up?",
       "I swear this place is cursed or some shit.",
       "We\x27re all going to die horribly, aren\x27t we?",
       "This is like a nightmare that never fucking ends."]
    let ch := pyChoice chars w.2
    let tx := pyChoice chaos_lines ch.2
    ({ sc with dialogue := sc.dialogue ++ [{ character := ch.1, text := tx.1 }] }, tx.2)
  else (sc, r.2)

/-- Scene `i` of the fallback unhinged story (`chars = c0 :: rest`). -/
def fbScene (chars : List String) (c0 : String) (rest : List String)
    (setting : String) (n : Nat) (i : Nat) (s : RState) : Scene × RState :=
  if i = 0 then
    let w := pyChoice fb_swears s
    let ch2 := pyChoice (if 0 < rest.length then rest else [c0]) w.2
    let sc : Scene :=
      { scene_id := i + 1,
        description := "Opening: " ++ c0 ++ " enters " ++ setting ++
          ", completely unaware they\x27re about to lose their fucking mind.",
        dialogue :=
          [{ character := c0,
             text := w.1 ++ "... this place gives me the creeps. Something\x27s really fucked up here." },
           { character := ch2.1,
             text := "You have no idea how deep this rabbit hole goes, you naive piece of shit." }] }
    fbAfterExtra chars sc ch2.2
  else if i = n - 1 then
    let sc : Scene :=
      { scene_id := i + 1,
        description := "Finale: Everything burns. Everyone dies. Reality collapses. The end... or is it?",
        dialogue :=
          [{ character := c0,
             text := "So this is how it fucking ends... with everyone dead and me covered in blood." },
           { character := "Narrator",
             text := "Did you really think there would be a happy ending? This is a horror story, you dumbass reader." }] }
    fbAfterExtra chars sc s
  else
    let st := pyChoice fb_scene_types s
    if st.1 = "violence" then
      let pl := pyChoice fb_plot_points st.2
      let w := pyChoice fb_swears pl.2
      let ch2 := pyChoice (if 0 < rest.length then rest else [c0]) w.2
      let sc : Scene :=
        { scene_id := i + 1,
          description := "Brutal violence erupts as " ++ c0 ++ " " ++ pl.1 ++
            " in the most savage way possible.",
          dialogue :=
            [{ character := c0, text := w.1 ++ "! I\x27ll rip your fucking throat out!" },
             { character := ch2.1, text := "Come on then! Let\x27s paint this place red with blood!" }] }
      fbAfterExtra chars sc ch2.2
    else if st.1 = "betrayal" then
      let ch2 := pyChoice (if 0 < rest.length then rest else [c0]) st.2
      let sc : Scene :=
        { scene_id := i + 1,
          description := "A shocking betrayal reveals that nothing was ever what it seemed.",
          dialogue :=
            [{ character := c0, text := "You backstabbing piece of shit! How could you do this to me?" },
             { character := ch2.1,
               text := "It was always the plan, you gullible fuck. You were just too stupid to see it." }] }
      fbAfterExtra chars sc ch2.2
    else if st.1 = "psychological_break" then
      let sc : Scene :=
        { scene_id := i + 1,
          description := "Reality fractures as " ++ c0 ++ "\x27s mind completely snaps under the pressure.",
          dialogue :=
            [{ character := c0, text := "I can\x27t... I can\x27t fucking take this anymore! Nothing makes sense!" },
             { character := c0, text := "Wait... am I talking to myself? Are you even real?" }] }
      fbAfterExtra chars sc st.2
    else if st.1 = "meta_commentary" then
      let sc : Scene :=
        { scene_id := i + 1,
          description := "The fourth wall shatters as characters become aware they\x27re in a manga.",
          dialogue :=
            [{ character := c0,
               text := "Hold on... why do I feel like someone\x27s watching us? Like we\x27re being... drawn?" },
             { character := "Narrator",
               text := "Oh shit, they\x27re becoming self-aware. This wasn\x27t supposed to happen." }] }
      fbAfterExtra chars sc st.2
    else
      let ch := pyChoice chars st.2
      let w := pyChoice fb_swears ch.2
      let sc : Scene :=
        { scene_id := i + 1,
          description := "Complete chaos erupts as reality itself begins to break down and nothing makes sense anymore.",
          dialogue :=
            [{ character := ch.1, text := w.1 ++ "! What the hell is happening to the world?" },
             { character := "Random Voice",
               text := "Welcome to the void, motherfuckers. Enjoy your stay in hell." }] }
      fbAfterExtra chars sc w.2

/-- Model of `OpenAIGenerator._generate_fallback_unhinged_story`.  `characters`
is `none` when the Python argument is still `None` at this point (the
no-credential early return passes it through unnormalized); subscripting
`None` raises, as does indexing an empty list — both are `none` results,
after the three draws that precede the summary line. -/
def fallback_unhinged_story (prompt : String) (characters : Option (List String))
    (s : RState) : Option Story × RState :=
  let num := pyRandint 12 15 s
  let set := pyChoice fb_settings num.2
  let plot := pyChoice fb_plot_points set.2
  match characters with
  | none => (none, plot.2)
  | some [] => (none, plot.2)
  | some (c0 :: rest) =>
    let sc := mapState (fbScene (c0 :: rest) c0 rest set.1 num.1) (List.range num.1) plot.2
    (some
      { title := "Unhinged " ++ prompt ++ ": Blood & Chaos",
        summary := "In " ++ set.1 ++ ", " ++ c0 ++ " " ++ plot.1 ++
          ". Nothing is sacred, nobody is safe, and reality itself becomes questionable in this twisted tale of madness and violence.",
        scenes := sc.1 }, sc.2)

/-- The chaos-sentence bank of `_enhance_story_chaos`. -/
def chaos_elements : List String :=
  ["Suddenly, the fourth wall breaks and the character realizes they\x27re in a manga.",
   "A completely random character appears and changes everything.",
   "The scene shifts to an alternate reality where everything is backwards.",
   "Time loops back and the character remembers dying in a previous timeline.",
   "The art style suddenly changes and characters comment on it.",
   "A narrator voice interrupts to mock the characters\x27 decisions."]

/-- Model of `OpenAIGenerator._enhance_story_chaos`: with probability 0.3 per
scene, append a random chaos sentence to the description. -/
def enhance_story_chaos (story : Story) (s : RState) : Story × RState :=
  let r := mapState
    (fun sc s =>
      let r := pyRand s
      if r.1 < 300 then
        let c := pyChoice chaos_elements r.2
        ({ sc with description := sc.description ++ " " ++ c.1 }, c.2)
      else (sc, r.2))
    story.scenes s
  ({ story with scenes := r.1 }, r.2)

/-- Python indexing into a string yields one-character strings; the
unnormalized `characters` argument reaching the fallback is subscripted
directly, so a raw comma string degenerates to its characters. -/
def charsAsSeqOpt : Option CharactersArg → Option (List String)
  | none => none
  | some (.str t) => some (t.toList.map (fun c => String.mk [c]))
  | some (.list l) => some l

/-- The characters normalization inside `generate_unhinged_story`
(reached only when a credential is present): `None` becomes the fixed
default pair, a string is comma-split and trimmed. -/
def openaiNormalize : Option CharactersArg → List String
  | none => ["Protagonist", "Antagonist"]
  | some (.str t) => (pySplitComma t).map String.trim
  | some (.list l) => l

/-- Model of `OpenAIGenerator.generate_unhinged_story`.  The outbound chat
completion request and its JSON parsing are summarized by the abstract
`remote` outcome: `Except.ok` is a successfully parsed story object and
`Except.error` is any transport or parsing exception.  With no
credential the method IMMEDIATELY returns the local fallback (before
the characters normalization); with a credential, a failed remote call
is caught inside the method and the local fallback is returned. -/
def generate_unhinged_story (api_key : Option String) (remote : Except String Story)
    (prompt : String) (characters : Option CharactersArg) (s : RState) :
    Option Story × RState :=
  match api_key with
  | none => fallback_unhinged_story prompt (charsAsSeqOpt characters) s
  | some _ =>
    let chars := openaiNormalize characters
    match remote with
    | .ok story =>
      let e := enhance_story_chaos story s
      (some e.1, e.2)
    | .error _ => fallback_unhinged_story prompt (some chars) s

/-- Model of `OpenAIGenerator.generate_panel_description`.  The remote request is
again abstracted by `remote`; the no-credential early return and the
catch-all handler both yield the PREFIXED scene description, not the
original string.  The `dialogue` and `style` arguments only feed the
outbound prompt text. -/
def generate_panel_description (api_key : Option String) (remote : Except String String)
    (scene_description : String) (_dialogue : List DialogueLine) (_style : String) :
    String :=
  match api_key with
  | none => "A dark, twisted manga panel showing: " ++ scene_description
  | some _ =>
    match remote with
    | .ok content => content
    | .error _ => "A dark, twisted manga panel showing: " ++ scene_description

/-! ### story_generator.py -/

/-- The characters normalization at the top of `generate_manga_story`
(lines 83 to 88): ONLY a `None` argument gets the default pair; an
empty LIST passes through unchanged. -/
def normalize_characters : Option CharactersArg → List String
  | none => ["Protagonist", "Antagonist"]
  | some (.str t) => (pySplitComma t).map String.trim
  | some (.list l) => l

/-- Unhinged settings bank of `_generate_enhanced_local_story`. -/
def loc_settings_u : List String :=
  ["a dystopian underground facility", "a blood-soaked battlefield",
   "a corrupt corporate tower", "a lawless wasteland",
   "a twisted psychological experiment", "a criminal underworld",
   "a post-apocalyptic city", "a dark web of conspiracies",
   "a violent gang territory", "a morally bankrupt institution",
   "a hellish nightmare realm", "a savage survival arena"]

/-- Unhinged plot-point bank of `_generate_enhanced_local_story`. -/
def loc_plots_u : List String :=
  ["brutally confronts their demons", "makes a morally questionable choice",
   "betrays someone close", "discovers a horrifying truth",
   "commits an unforgivable act", "loses their humanity",
   "embraces their dark side", "destroys everything they love",
   "becomes the villain", "breaks every rule",
   "crosses the point of no return", "faces ultimate corruption"]

/-- Unhinged emotion bank of `_generate_enhanced_local_story`. -/
def loc_emotions_u : List String :=
  ["ruthlessly determined", "psychologically broken", "violently angry",
   "desperately hopeful", "dangerously unstable", "morally conflicted",
   "coldly calculating", "deeply traumatized", "savagely vengeful",
   "completely unhinged", "darkly amused", "brutally honest"]

/-- Swear bank of `_generate_enhanced_local_story` (lower-case). -/
def loc_swears : List String :=
  ["damn", "hell", "shit", "fuck", "bastard", "bitch", "asshole", "motherfucker",
   "son of a bitch", "what the fuck", "holy shit", "goddamn", "fucking hell",
   "piece of shit"]

/-- Unhinged title suffix bank. -/
def loc_titles_u : List String :=
  ["Blood & Betrayal", "Chaos Unleashed", "Dark Descent", "Savage Truth", "Broken Souls"]

/-- Unhinged emotion-keyed dialogue templates (6 of the 12 emotions). -/
def loc_templates_u : List (String × List String) :=
  [("ruthlessly determined",
    ["I\x27ll do whatever it takes, no matter who gets hurt.", "Mercy is a weakness I can\x27t afford."]),
   ("psychologically broken",
    ["I can\x27t tell what\x27s real anymore...", "The voices won\x27t stop..."]),
   ("violently angry",
    ["I\x27ll tear this whole place apart!", "Someone\x27s going to pay for this!"]),
   ("desperately hopeful",
    ["There has to be another way... please...", "I refuse to believe it\x27s hopeless."]),
   ("dangerously unstable",
    ["Haha... this is getting interesting...", "Let\x27s see how far we can push this."]),
   ("morally conflicted",
    ["Is this who I\x27ve become?", "When did I stop caring about right and wrong?"])]

/-- Regular settings bank. -/
def loc_settings_r : List String :=
  ["a mysterious academy", "an ancient temple", "a futuristic city", "a haunted mansion",
   "a magical forest", "an underground laboratory", "a floating island",
   "a cyberpunk district", "a desert oasis", "a mountain peak", "a space station",
   "a medieval castle"]

/-- Regular plot-point bank. -/
def loc_plots_r : List String :=
  ["discovers a hidden power", "faces their greatest fear", "betrays a trusted ally",
   "uncovers a dark secret", "makes an impossible choice", "confronts their past",
   "saves an enemy", "loses everything", "gains new allies", "breaks an ancient curse",
   "travels through time", "enters another dimension"]

/-- Regular emotion bank. -/
def loc_emotions_r : List String :=
  ["determined", "conflicted", "angry", "hopeful", "desperate", "confused",
   "triumphant", "sorrowful", "fearful", "excited", "nostalgic", "vengeful"]

/-- Regular title suffix bank. -/
def loc_titles_r : List String :=
  ["Awakening", "Destiny", "Legacy", "Revolution", "Eclipse"]

/-- Regular emotion-keyed dialogue templates (6 of the 12 emotions). -/
def loc_templates_r : List (String × List String) :=
  [("determined",
    ["I won\x27t give up, no matter what!", "This is what I\x27ve been training for."]),
   ("conflicted",
    ["I don\x27t know what\x27s right anymore...", "How can I choose between them?"]),
   ("angry",
    ["You\x27ve gone too far this time!", "I\x27ll make you pay for what you\x27ve done!"]),
   ("hopeful",
    ["Maybe there\x27s still a chance...", "I believe we can find another way."]),
   ("desperate",
    ["Please, there has to be something we can do!", "I\x27m running out of options..."]),
   ("fearful",
    ["What if we\x27re too late?", "I\x27ve never been so scared in my life..."])]

/-- Unhinged response bank for middle scenes. -/
def loc_responses_u : List String :=
  ["The game is rigged, but we\x27re still playing like idiots.",
   "Morality is a luxury we can\x27t fucking afford.",
   "Everyone has a breaking point, and we\x27re way past ours.",
   "Trust is the first casualty of this shitshow.",
   "Sometimes the hero and villain are the same damn person.",
   "We\x27re all going to hell, might as well enjoy the ride.",
   "Survival makes monsters of us all."]

/-- Regular response bank for middle scenes. -/
def loc_responses_r : List String :=
  ["The path ahead won\x27t be easy, but we\x27ll face it together.",
   "Every challenge makes us stronger.",
   "Hope is what keeps us going.",
   "We\x27ll find a way, we always do.",
   "Together, we can overcome anything."]

/-- Unhinged extra-line bank for the optional third dialogue. -/
def loc_extra_u : List String :=
  ["The line between hero and villain is thinner than you think.",
   "Everyone\x27s got blood on their hands now.",
   "Survival changes people in fucked up ways.",
   "The system is broken, and we\x27re the damn glitch.",
   "Sometimes the only way out is through hell itself.",
   "We\x27ve crossed lines we can never uncross.",
   "This world doesn\x27t give a shit about good intentions."]

/-- Regular extra-line bank for the optional third dialogue. -/
def loc_extra_r : List String :=
  ["The stakes have never been higher.",
   "Everything we\x27ve worked for depends on this.",
   "I can feel the power growing stronger.",
   "The enemy is closer than we thought.",
   "Time is running out."]

/-- The profanity markers checked before injecting a swear. -/
def swearMarkers : List String := ["damn", "hell", "shit", "fuck"]

/-- Scene `i` of `_generate_enhanced_local_story` (`chars = c0 :: rest`,
`u` is the unhinged flag). -/
def locScene (chars : List String) (c0 : String) (rest : List String)
    (setting : String) (u : Bool) (n : Nat) (i : Nat) (s : RState) : Scene × RState :=
  if i = 0 then
    if u then
      let v := pyChoice ["fucked up", "wrong", "off"] s
      let ch2 := pyChoice (if 0 < rest.length then rest else [c0]) v.2
      ({ scene_id := i + 1,
         description := "Opening: " ++ c0 ++ " enters " ++ setting ++
           ", unaware they\x27re about to descend into hell.",
         dialogue :=
           [{ character := c0,
              text := "Something\x27s seriously " ++ v.1 ++ " with this place..." },
            { character := ch2.1,
              text := "You have no idea what you\x27ve gotten yourself into, you naive bastard." }] },
       ch2.2)
    else
      let ch2 := pyChoice (if 0 < rest.length then rest else [c0]) s
      ({ scene_id := i + 1,
         description := "Opening: " ++ c0 ++ " arrives at " ++ setting ++
           ", sensing that their life is about to change forever.",
         dialogue :=
           [{ character := c0,
              text := "Something feels different about this place... like it\x27s been waiting for me." },
            { character := ch2.1,
              text := "You\x27re more perceptive than I thought. Welcome to your destiny." }] },
       ch2.2)
  else if i = n - 1 then
    if u then
      let v := pyChoice ["monster", "killer", "piece of shit"] s
      let ch2 := pyChoice (if 0 < rest.length then rest else [c0]) v.2
      ({ scene_id := i + 1,
         description := "Finale: The brutal truth is revealed and " ++ c0 ++
           " must choose between their soul and survival.",
         dialogue :=
           [{ character := c0, text := "So this is what I\x27ve become... a " ++ v.1 ++ "." },
            { character := ch2.1,
              text := "Welcome to reality, asshole. Now you understand the price of power." }] },
       ch2.2)
    else
      let ch2 := pyChoice (if 0 < rest.length then rest else [c0]) s
      ({ scene_id := i + 1,
         description := "Finale: The truth is revealed and " ++ c0 ++
           " must make the ultimate choice that will determine everyone\x27s fate.",
         dialogue :=
           [{ character := c0, text := "Now I understand... everything led to this moment." },
            { character := ch2.1,
              text := "The choice is yours. What kind of future will you create?" }] },
       ch2.2)
  else
    let em := pyChoice (if u then loc_emotions_u else loc_emotions_r) s
    let pl := pyChoice (if u then loc_plots_u else loc_plots_r) em.2
    let description := "Scene " ++ toString (i + 1) ++ ": Feeling " ++ em.1 ++ ", " ++
      c0 ++ " " ++ pl.1 ++ " while navigating the challenges ahead."
    let md := pyChoice
      ((List.lookup em.1 (if u then loc_templates_u else loc_templates_r)).getD
        ["Let\x27s see what happens next."]) pl.2
    let mdr :=
      if u then
        let r := pyRand md.2
        if 500 < r.1 then
          let w := pyChoice loc_swears r.2
          if !(swearMarkers.any (fun t => strContainsSub md.1.toLower t)) then
            (pyCapitalize w.1 ++ ", " ++ md.1.toLower, w.2)
          else (md.1, w.2)
        else (md.1, r.2)
      else (md.1, md.2)
    let ch2 := pyChoice (if 0 < rest.length then rest else [c0]) mdr.2
    let resp := pyChoice (if u then loc_responses_u else loc_responses_r) ch2.2
    let base : Scene :=
      { scene_id := i + 1, description := description,
        dialogue := [{ character := c0, text := mdr.1 },
                     { character := ch2.1, text := resp.1 }] }
    let r2 := pyRand resp.2
    if 600 < r2.1 then
      let exCh := pyChoice chars r2.2
      let exTx := pyChoice (if u then loc_extra_u else loc_extra_r) exCh.2
      ({ base with dialogue := base.dialogue ++ [{ character := exCh.1, text := exTx.1 }] },
       exTx.2)
    else (base, r2.2)

/-- Model of `_generate_enhanced_local_story`: 10 to 15 scenes.  The summary line
subscripts `characters[0]`, so an empty roster raises IndexError there
— after the four draws that precede it (scene count, setting, plot,
title suffix).  The metadata dictionary is informational only and not
modelled. -/
def enhanced_local_story (prompt : String) (characters : List String) (u : Bool)
    (s : RState) : Option Story × RState :=
  let num := pyRandint 10 15 s
  let set := pyChoice (if u then loc_settings_u else loc_settings_r) num.2
  let plot := pyChoice (if u then loc_plots_u else loc_plots_r) set.2
  let tv := pyChoice (if u then loc_titles_u else loc_titles_r) plot.2
  match characters with
  | [] => (none, tv.2)
  | c0 :: rest =>
    let sc := mapState (locScene (c0 :: rest) c0 rest set.1 u num.1) (List.range num.1) tv.2
    (some
      { title :=
          if u then prompt ++ ": " ++ tv.1
          else "Chronicles of " ++ prompt ++ ": " ++ tv.1,
        summary :=
          if u then
            "In " ++ set.1 ++ ", " ++ c0 ++ " " ++ plot.1 ++
              ". A brutal tale where morality is a luxury and survival demands sacrifice."
          else
            "In " ++ set.1 ++ ", " ++ c0 ++ " " ++ plot.1 ++
              ". A tale of courage, mystery, and the bonds that define us.",
        scenes := sc.1 }, sc.2)

/-- The genre-keyed title templates of `_generate_enhanced_story_with_nlp`. -/
def title_templates : List (String × List String) :=
  [("action", ["Battle for", "War of", "Clash of", "Fight for"]),
   ("romance", ["Love in", "Hearts of", "Romance of", "Passion in"]),
   ("mystery", ["Mystery of", "Secret of", "Case of", "Enigma of"]),
   ("fantasy", ["Legend of", "Chronicles of", "Magic of", "Realm of"]),
   ("horror", ["Terror of", "Nightmare of", "Horror of", "Fear of"]),
   ("comedy", ["Comedy of", "Adventures of", "Misadventures of", "Tales of"]),
   ("drama", ["Story of", "Life of", "Journey of", "Trials of"]),
   ("sci-fi", ["Future of", "Galaxy of", "Technology of", "Tomorrow of"])]

/-- The drama row of `title_templates`, the lookup fallback. -/
def dramaTitles : List String := ["Story of", "Life of", "Journey of", "Trials of"]

/-- Model of `_generate_enhanced_story_with_nlp`: NLP scenes, then a dynamic
title and summary from the analysis.  A `none` scene result (trait
ValueError, impossible for the analyzer genres) propagates. -/
def enhanced_story_with_nlp (prompt : String) (characters : List String) (s : RState) :
    Option Story × RState :=
  let g := generate_story prompt (some (.list characters)) s
  match g.1 with
  | none => (none, g.2)
  | some scenes =>
    let analysis := analyze_prompt prompt
    let genre := analysis.primary_genre
    let themes := analysis.themes
    let pfx := pyChoice ((List.lookup genre title_templates).getD dramaTitles) g.2
    let subject := themes.headD (characters.headD "Adventure")
    (some
      { title := pfx.1 ++ " " ++ pyTitle subject,
        summary := "A " ++ genre ++ " tale where " ++ (characters.headD "our hero") ++
          " embarks on a journey involving " ++
          (if themes ≠ [] then String.intercalate ", " (themes.take 3)
           else "mystery and adventure") ++ ". " ++ prompt,
        scenes := scenes,
        genre := some genre,
        themes := some (themes.take 5),
        characters := some characters }, pfx.2)

/-- Model of `generate_manga_story`: normalize the characters argument, then
route.  The `EnhancedStoryGenerator` constructor never fails, so the
OpenAI generator object is always available and the unhinged branch
always calls `generate_unhinged_story`; an exception escaping it is
caught and the enhanced local story is generated with the RNG state
wherever the exception left it. -/
def generate_manga_story (api_key : Option String) (remote : Except String Story)
    (prompt : String) (characters : Option CharactersArg) (unhinged : Bool)
    (s : RState) : Option Story × RState :=
  let chars := normalize_characters characters
  if unhinged then
    let r := generate_unhinged_story api_key remote prompt (some (.list chars)) s
    match r.1 with
    | some st => (some st, r.2)
    | none => enhanced_local_story prompt chars true r.2
  else
    enhanced_story_with_nlp prompt chars s

/-! ### layout_engine.py — export panel handling -/

/-- One export panel record.  A missing "path" key gives `none`
(`panel.get("path")` is `None`). -/
structure Panel where
  path : Option String
  dialogue : List DialogueLine := []
deriving DecidableEq, Repr

/-- The panel loop of `create_manga_pdf` (lines 42 to 46), abstracted
over the filesystem existence predicate `ex`: the list of panels
actually rendered, in order.  A `None` path makes the existence check
raise TypeError (`os.path.exists` only swallows OSError and ValueError),
so the whole export fails: result `none`. -/
def create_manga_pdf_panels (ex : String → Bool) : List Panel → Option (List Panel)
  | [] => some []
  | p :: rest =>
    match p.path with
    | none => none
    | some pa =>
      if ex pa then (create_manga_pdf_panels ex rest).map (p :: ·)
      else create_manga_pdf_panels ex rest

/-- The copy loop of `create_manga_cbz` (lines 111 to 118): the
zero-padded archive entry names produced, in order.  The `enumerate`
index advances on skipped panels too.  A `None` path raises TypeError:
result `none`. -/
def create_manga_cbz_images (ex : String → Bool) : Nat → List Panel → Option (List String)
  | _, [] => some []
  | i, p :: rest =>
    match p.path with
    | none => none
    | some pa =>
      if ex pa then
        (create_manga_cbz_images ex (i + 1) rest).map (fun l => (zeroPad3 i ++ ".png") :: l)
      else create_manga_cbz_images ex (i + 1) rest

/-! ## Theorems settling the claims -/

theorem trait_embellish_cases (text : String) (traits : List String) (s : RState) :
    (trait_embellish text traits s).1 = text ∨
    (trait_embellish text traits s).1 = text ++ " *smirks*" ∨
    (trait_embellish text traits s).1 = replaceBang text := by
  simp only [trait_embellish]
  split_ifs <;> simp

/-- Every output of `enhance_dialogue` is an optionally emotion-prefixed
base to which AT MOST ONE of the two trait modifications has been
applied. -/
theorem enhance_dialogue_cases (text emotion : String) (traits : List String) (s : RState) :
    ∃ base : String,
      (base = text ∨
        ∃ p ∈ (List.lookup emotion emotion_modifiers).getD [], base = p ++ " " ++ text) ∧
      ((enhance_dialogue text emotion traits s).1 = base ∨
       (enhance_dialogue text emotion traits s).1 = base ++ " *smirks*" ∨
       (enhance_dialogue text emotion traits s).1 = replaceBang base) := by
  have hmods : ∀ q ∈ emotion_modifiers, q.2 ≠ [] := by decide
  simp only [enhance_dialogue]
  by_cases h1 : (pyRand s).1 < 300 ∧ (List.lookup emotion emotion_modifiers).isSome
  · obtain ⟨v, hv⟩ := Option.isSome_iff_exists.mp h1.2
    have hvne : v ≠ [] := by
      obtain ⟨l₁, l₂, heq, _⟩ := List.lookup_eq_some_iff.mp hv
      exact hmods (emotion, v) (heq ▸ List.mem_append_right l₁ (List.mem_cons_self _ _))
    rw [if_pos h1, hv]
    refine ⟨(pyChoice (Option.getD (some v) []) (pyRand s).2).1 ++ " " ++ text,
      Or.inr ⟨(pyChoice (Option.getD (some v) []) (pyRand s).2).1, ?_, rfl⟩, ?_⟩
    · rw [hv] at h1
      simpa using pyChoice_mem v (pyRand s).2 hvne
    · exact trait_embellish_cases _ traits _
  · rw [if_neg h1]
    exact ⟨text, Or.inl rfl, trait_embellish_cases _ traits _⟩

/-- Claim C7 (amended): in `enhance_dialogue` the witty suffix and the
serious punctuation replacement are NOT independent — the source uses
an elif, so every output is the (possibly emotion-prefixed) base text
with at most one of the two trait modifications applied; both can never
occur in the same call, even when the traits list contains both witty
and serious. -/
theorem C7_theorem (text emotion : String) (traits : List String) (s : RState) :
    ∃ base : String,
      (base = text ∨
        ∃ p ∈ (List.lookup emotion emotion_modifiers).getD [], base = p ++ " " ++ text) ∧
      ((enhance_dialogue text emotion traits s).1 = base ∨
       (enhance_dialogue text emotion traits s).1 = base ++ " *smirks*" ∨
       (enhance_dialogue text emotion traits s).1 = replaceBang base) := by
  have hmods : ∀ q ∈ emotion_modifiers, q.2 ≠ [] := by decide
  simp only [enhance_dialogue]
  by_cases h1 : (pyRand s).1 < 300 ∧ (List.lookup emotion emotion_modifiers).isSome
  · obtain ⟨v, hv⟩ := Option.isSome_iff_exists.mp h1.2
    have hvne : v ≠ [] := by
      obtain ⟨l₁, l₂, heq, _⟩ := List.lookup_eq_some_iff.mp hv
      exact hmods (emotion, v) (heq ▸ List.mem_append_right l₁ (List.mem_cons_self _ _))
    rw [if_pos h1, hv]
    refine ⟨(pyChoice (Option.getD (some v) []) (pyRand s).2).1 ++ " " ++ text,
      Or.inr ⟨(pyChoice (Option.getD (some v) []) (pyRand s).2).1, ?_, rfl⟩, ?_⟩
    · rw [hv] at h1
      simpa using pyChoice_mem v (pyRand s).2 hvne
    · exact trait_embellish_cases _ traits _
  · rw [if_neg h1]
    exact ⟨text, Or.inl rfl, trait_embellish_cases _ traits _⟩

/-- Claim C7, original statement refuted: with both witty and serious
among the traits and a neutral emotion, no RNG draw sequence makes both
modifications land in the same call (the output would have to be the
replaced text plus the smirk suffix). -/
theorem C7_counterexample :
    ¬ ∃ s : RState,
      (enhance_dialogue "Go!" "none" ["witty", "serious"] s).1 = "Go. *smirks*" := by
  rintro ⟨s, h⟩
  have hlk : (List.lookup "none" emotion_modifiers).isSome = false := by decide
  simp only [enhance_dialogue, hlk, Bool.false_eq_true, and_false, if_false,
    trait_embellish] at h
  rw [if_pos (by decide : "witty" ∈ ["witty", "serious"])] at h
  by_cases h2 : (pyRand (pyRand s).2).1 < 200
  · rw [if_pos h2] at h
    dsimp only at h
    exact absurd h (by decide)
  · rw [if_neg h2, if_pos (by decide : "serious" ∈ ["witty", "serious"])] at h
    by_cases h3 : (pyRand (pyRand (pyRand s).2).2).1 < 200
    · rw [if_pos h3] at h
      dsimp only at h
      exact absurd h (by decide)
    · rw [if_neg h3] at h
      dsimp only at h
      exact absurd h (by decide)

/-- For a genre that is a key of the trait table, the sample is from a
5-entry duplicate-free pool, so trait generation succeeds with 3
distinct traits drawn from that pool. -/
theorem generate_character_traits_known_spec (name genre : String) (s : RState)
    (h : genre ∈ genre_traits.map Prod.fst) :
    ∃ pr, (generate_character_traits name genre s).1 = some pr ∧
      pr.traits.length = 3 ∧ pr.traits.Nodup ∧
      ∀ t ∈ pr.traits, t ∈ (List.lookup genre genre_traits).getD fallbackTraits := by
  have htbl : ∀ q ∈ genre_traits, q.2.Nodup ∧ 3 ≤ q.2.length := by decide
  have hsome : (List.lookup genre genre_traits).isSome := by
    rw [List.lookup_isSome_iff]
    obtain ⟨p, hp, he⟩ := List.mem_map.mp h
    exact ⟨p, hp, by simp [he]⟩
  obtain ⟨v, hv⟩ := Option.isSome_iff_exists.mp hsome
  have hvprop : v.Nodup ∧ 3 ≤ v.length := by
    obtain ⟨l₁, l₂, heq, _⟩ := List.lookup_eq_some_iff.mp hv
    exact htbl (genre, v) (heq ▸ List.mem_append_right l₁ (List.mem_cons_self _ _))
  obtain ⟨ys, hys, hlen, hnd, hmem⟩ := pySample_spec v 3 s hvprop.1 hvprop.2
  refine ⟨{ name := name, traits := ys, primary_trait := ys.headD "mysterious" }, ?_,
    hlen, hnd, ?_⟩
  · simp only [generate_character_traits, hv, Option.getD_some, hys]
  · intro t ht
    rw [hv, Option.getD_some]
    exact hmem t ht

/-- The running maximum of the Python max fold stays inside the list. -/
theorem foldl_max_mem : ∀ (rest : List (String × Nat)) (p : String × Nat),
    rest.foldl (fun best q => if best.2 < q.2 then q else best) p ∈ p :: rest := by
  intro rest
  induction rest with
  | nil => intro p; simp
  | cons q t ih =>
    intro p
    rw [List.foldl_cons]
    by_cases hc : p.2 < q.2
    · rw [if_pos hc]
      rcases List.mem_cons.mp (ih q) with he | ht
      · rw [he]; simp
      · simp [ht]
    · rw [if_neg hc]
      rcases List.mem_cons.mp (ih p) with he | ht
      · rw [he]; simp
      · simp [ht]

theorem firstMaxKey_mem (l : List (String × Nat)) (dflt : String) :
    firstMaxKey l dflt = dflt ∨ firstMaxKey l dflt ∈ l.map Prod.fst := by
  cases l with
  | nil => exact Or.inl rfl
  | cons p rest =>
    right
    exact List.mem_map_of_mem Prod.fst (foldl_max_mem rest p)

theorem positiveScores_fst_sub (words : List String) (table : List (String × List String)) :
    ∀ x ∈ (positiveScores words table).map Prod.fst, x ∈ table.map Prod.fst := by
  intro x hx
  obtain ⟨q, hq, rfl⟩ := List.mem_map.mp hx
  have hq' := List.mem_of_mem_filter hq
  obtain ⟨p, hp, he⟩ := List.mem_map.mp hq'
  have hfst : q.1 = p.1 := by rw [← he]
  rw [hfst]
  exact List.mem_map_of_mem Prod.fst hp

/-- The analyzer only ever reports one of its 8 table genres (the
default drama is itself a key). -/
theorem analyze_primary_genre_mem (prompt : String) :
    (analyze_prompt prompt).primary_genre ∈ genre_keywords.map Prod.fst := by
  show firstMaxKey (positiveScores (pyWords prompt) genre_keywords) "drama" ∈ _
  rcases firstMaxKey_mem (positiveScores (pyWords prompt) genre_keywords) "drama" with hd | hm
  · rw [hd]; decide
  · exact positiveScores_fst_sub _ _ _ hm

/-- The analyzer key set and the trait-table key set coincide. -/
theorem genre_keys_eq : genre_keywords.map Prod.fst = genre_traits.map Prod.fst := by decide

/-- Profile building never fails when the genre is a trait-table key. -/
theorem buildProfiles_isSome : ∀ (chars : List String) (genre : String) (s : RState),
    genre ∈ genre_traits.map Prod.fst → ((buildProfiles chars genre s).1).isSome := by
  intro chars
  induction chars with
  | nil => intro g s _; simp [buildProfiles]
  | cons c rest ih =>
    intro g s hg
    obtain ⟨pr, hpr, _, _, _⟩ := generate_character_traits_known_spec c g s hg
    have hb := ih g (generate_character_traits c g s).2 hg
    simp only [buildProfiles, hpr]
    cases hbb : (buildProfiles rest g (generate_character_traits c g s).2).1 with
    | none => rw [hbb] at hb; simp at hb
    | some ps => simp

/-- Function `generate_story` always succeeds: the analyzer genre always hits
the trait table, so the only failure point never fires. -/
theorem generate_story_isSome (prompt : String) (chars : Option CharactersArg) (s : RState) :
    ((generate_story prompt chars s).1).isSome := by
  have hg : (analyze_prompt prompt).primary_genre ∈ genre_traits.map Prod.fst := by
    have h := analyze_primary_genre_mem prompt
    rwa [genre_keys_eq] at h
  have hb := buildProfiles_isSome (nlpNormalize chars) (analyze_prompt prompt).primary_genre s hg
  simp only [generate_story]
  cases hbb : (buildProfiles (nlpNormalize chars) (analyze_prompt prompt).primary_genre s).1 with
  | none => rw [hbb] at hb; simp at hb
  | some ps => simp

/-- Claim C3 (amended): for every genre that IS one of the 8 trait-table
keys, `generate_character_traits` returns a profile with exactly 3
distinct traits sampled without replacement from that genre table.  For
any other genre the claim fails: the generic fallback table has only 2
entries, fewer than the 3 requested, and the sampling raises (see the
counterexample). -/
theorem C3_theorem (name genre : String) (s : RState)
    (h : genre ∈ genre_traits.map Prod.fst) :
    ∃ pr, (generate_character_traits name genre s).1 = some pr ∧
      pr.traits.length = 3 ∧ pr.traits.Nodup ∧
      ∀ t ∈ pr.traits, t ∈ (List.lookup genre genre_traits).getD fallbackTraits :=
  generate_character_traits_known_spec name genre s h

/-- Claim C3, original statement refuted: a genre outside the table
(here "western") routes to the 2-entry fallback table and sampling 3
traits fails — the call raises instead of returning a 3-trait
profile. -/
theorem C3_counterexample :
    (generate_character_traits "Bob" "western" ([] : RState)).1 = none ∧
    fallbackTraits.length = 2 := by
  exact ⟨rfl, rfl⟩

/-- Witness for C3_theorem at a concrete input. -/
theorem C3_witness :
    "action" ∈ genre_traits.map Prod.fst ∧
    ∃ pr, (generate_character_traits "Alice" "action" ([] : RState)).1 = some pr ∧
      pr.traits.length = 3 ∧ pr.traits.Nodup ∧
      ∀ t ∈ pr.traits, t ∈ (List.lookup "action" genre_traits).getD fallbackTraits :=
  ⟨by decide, C3_theorem "Alice" "action" ([] : RState) (by decide)⟩

/-- Claim C9: `analyze_prompt` always returns a primary genre among the
8 analyzer genres, each of which is a key of the trait table; hence
inside `generate_story` character trait generation never reaches the
under-sized generic fallback and always succeeds with exactly 3
distinct traits, and `generate_story` itself never fails, for every
prompt and every characters argument. -/
theorem C9_theorem (prompt name : String) (s : RState)
    (chars : Option CharactersArg) (s2 : RState) :
    (analyze_prompt prompt).primary_genre ∈ genre_keywords.map Prod.fst ∧
    (∃ pr, (generate_character_traits name (analyze_prompt prompt).primary_genre s).1
        = some pr ∧ pr.traits.length = 3 ∧ pr.traits.Nodup) ∧
    ((generate_story prompt chars s2).1).isSome = true := by
  have hg := analyze_primary_genre_mem prompt
  have hg' : (analyze_prompt prompt).primary_genre ∈ genre_traits.map Prod.fst := by
    rwa [genre_keys_eq] at hg
  obtain ⟨pr, hpr, hlen, hnd, _⟩ :=
    generate_character_traits_known_spec name (analyze_prompt prompt).primary_genre s hg'
  exact ⟨hg, ⟨pr, hpr, hlen, hnd⟩, generate_story_isSome prompt chars s2⟩

theorem nlpScene_scene_id (prompt : String) (analysis : Analysis) (chars : List String)
    (profiles : List (String × CharacterProfile)) (n i : Nat) (s : RState) :
    (nlpScene prompt analysis chars profiles n i s).1.scene_id = i + 1 := rfl

theorem fbAfterExtra_scene_id (chars : List String) (sc : Scene) (s : RState) :
    (fbAfterExtra chars sc s).1.scene_id = sc.scene_id := by
  simp only [fbAfterExtra]
  split_ifs <;> rfl

theorem fbScene_scene_id (chars : List String) (c0 : String) (rest : List String)
    (setting : String) (n i : Nat) (s : RState) :
    (fbScene chars c0 rest setting n i s).1.scene_id = i + 1 := by
  simp only [fbScene]
  split_ifs <;> rw [fbAfterExtra_scene_id]

theorem locScene_scene_id (chars : List String) (c0 : String) (rest : List String)
    (setting : String) (u : Bool) (n i : Nat) (s : RState) :
    (locScene chars c0 rest setting u n i s).1.scene_id = i + 1 := by
  simp only [locScene]
  split_ifs <;> rfl

/-- The 1-based contiguous id property for a scene list. -/
def sceneIdsContiguous (scenes : List Scene) : Prop :=
  scenes.map Scene.scene_id = List.range' 1 scenes.length

theorem mapState_scene_ids {f : Nat → RState → Scene × RState}
    (hf : ∀ i (s : RState), (f i s).1.scene_id = i + 1) (n : Nat) (s : RState) :
    sceneIdsContiguous (mapState f (List.range n) s).1 := by
  unfold sceneIdsContiguous
  rw [mapState_length, List.length_range,
    mapState_map f Scene.scene_id (fun k => k + 1) hf (List.range n) s,
    range_map_succ_eq_range']

theorem generate_story_scene_ids (prompt : String) (chars : Option CharactersArg)
    (s : RState) :
    ((generate_story prompt chars s).1).elim True sceneIdsContiguous := by
  simp only [generate_story]
  cases hbb : (buildProfiles (nlpNormalize chars)
      (analyze_prompt prompt).primary_genre s).1 with
  | none => simp
  | some ps =>
    simp only [Option.elim_some]
    exact mapState_scene_ids (fun i s' => nlpScene_scene_id prompt _ _ ps _ i s') _ _

theorem enhanced_local_story_scene_ids (prompt : String) (chars : List String) (u : Bool)
    (s : RState) :
    ((enhanced_local_story prompt chars u s).1).elim True (fun st =>
      sceneIdsContiguous st.scenes) := by
  cases chars with
  | nil => simp [enhanced_local_story]
  | cons c0 rest =>
    simp only [enhanced_local_story, Option.elim_some]
    exact mapState_scene_ids (fun i s' => locScene_scene_id _ c0 rest _ u _ i s') _ _

theorem fallback_unhinged_scene_ids (prompt : String) (chars : Option (List String))
    (s : RState) :
    ((fallback_unhinged_story prompt chars s).1).elim True (fun st =>
      sceneIdsContiguous st.scenes) := by
  cases chars with
  | none => simp [fallback_unhinged_story]
  | some l =>
    cases l with
    | nil => simp [fallback_unhinged_story]
    | cons c0 rest =>
      simp only [fallback_unhinged_story, Option.elim_some]
      exact mapState_scene_ids (fun i s' => fbScene_scene_id _ c0 rest _ _ i s') _ _

/-- Claim C6: in every story the repository itself generates (the NLP
path, the enhanced local path, and the no-credential unhinged fallback
path), scene ids are assigned 1..N in generation order — the scene id
list is exactly the contiguous 1-based range, so ids are unique,
1-based and contiguous.  (A story delivered by the remote API carries
whatever ids the remote JSON contained; that data is external input,
not produced by this code.) -/
theorem C6_theorem (prompt : String) (chars : Option CharactersArg)
    (chars2 : List String) (u : Bool) (chars3 : Option (List String))
    (s1 s2 s3 : RState) :
    (((generate_story prompt chars s1).1).elim True sceneIdsContiguous) ∧
    (((enhanced_local_story prompt chars2 u s2).1).elim True (fun st =>
      sceneIdsContiguous st.scenes)) ∧
    (((fallback_unhinged_story prompt chars3 s3).1).elim True (fun st =>
      sceneIdsContiguous st.scenes)) :=
  ⟨generate_story_scene_ids prompt chars s1,
   enhanced_local_story_scene_ids prompt chars2 u s2,
   fallback_unhinged_scene_ids prompt chars3 s3⟩

/-- Claim C5: with unhinged mode requested and no API credential
configured, `generate_manga_story` on a non-empty prompt and non-empty
characters list does not raise: the call reaches the local fallback of
the OpenAI generator (a local edgy generation) and returns a story
whose scene count lies in [10, 15] (the fallback draws 12 to 15
scenes). -/
theorem C5_theorem (prompt : String) (chars : List String) (remote : Except String Story)
    (s : RState) (_hp : prompt ≠ "") (hc : chars ≠ []) :
    ((generate_manga_story none remote prompt (some (.list chars)) true s).1).elim False
      (fun st => 10 ≤ st.scenes.length ∧ st.scenes.length ≤ 15) := by
  obtain ⟨c0, rest, rfl⟩ := List.exists_cons_of_ne_nil hc
  simp only [generate_manga_story, normalize_characters, generate_unhinged_story,
    charsAsSeqOpt, fallback_unhinged_story, if_true, Option.elim_some]
  rw [mapState_length, List.length_range]
  have hm : List.headD s 0 % (15 - 12 + 1) < 4 := Nat.mod_lt _ (by norm_num)
  constructor <;> [skip; skip] <;> simp only [pyRandint] <;> omega

/-- Witness for C5_theorem at a concrete input. -/
theorem C5_witness :
    "A revenge tale" ≠ "" ∧ (["Kazuo", "Miyuki"] : List String) ≠ [] ∧
    ((generate_manga_story none (.error "boom") "A revenge tale"
        (some (.list ["Kazuo", "Miyuki"])) true ([] : RState)).1).elim False
      (fun st => 10 ≤ st.scenes.length ∧ st.scenes.length ≤ 15) :=
  ⟨by decide, by decide,
   C5_theorem "A revenge tale" ["Kazuo", "Miyuki"] (.error "boom") ([] : RState)
     (by decide) (by decide)⟩

/-- Claim C1 (amended): `generate_unhinged_story` never raises on a
missing credential or a failed remote call — contrary to the spec, the
method ITSELF substitutes the locally generated fallback story in both
cases.  With no credential it returns the local fallback immediately
(before even normalizing the characters argument), and with a
credential it catches every remote failure internally and returns the
local fallback; the catch in the caller `generate_manga_story` is not
what provides these fallbacks. -/
theorem C1_theorem (prompt : String) (characters : Option CharactersArg)
    (remote : Except String Story) (e key : String) (s : RState) :
    generate_unhinged_story none remote prompt characters s
      = fallback_unhinged_story prompt (charsAsSeqOpt characters) s ∧
    generate_unhinged_story (some key) (.error e) prompt characters s
      = fallback_unhinged_story prompt (some (openaiNormalize characters)) s :=
  ⟨rfl, rfl⟩

/-- Claim C1, original statement refuted: with the credential missing
(and likewise with a failing remote call) the method returns a story —
it does not raise, so the caller-side fallback is never what produces
the story. -/
theorem C1_counterexample :
    (generate_unhinged_story none (.error "boom") "A revenge tale"
        (some (.list ["Kazuo", "Miyuki"])) ([] : RState)).1.isSome = true ∧
    generate_unhinged_story none (.error "boom") "A revenge tale"
        (some (.list ["Kazuo", "Miyuki"])) ([] : RState)
      = fallback_unhinged_story "A revenge tale" (some ["Kazuo", "Miyuki"]) ([] : RState) :=
  ⟨rfl, rfl⟩

/-- Claim C8 (amended): when the credential is absent, and likewise
when the remote call fails, `generate_panel_description` returns the
scene description PREFIXED with a fixed framing sentence — not the
original string unmodified. -/
theorem C8_theorem (scene_description : String) (dialogue : List DialogueLine)
    (style : String) (remote : Except String String) (e key : String) :
    generate_panel_description none remote scene_description dialogue style
      = "A dark, twisted manga panel showing: " ++ scene_description ∧
    generate_panel_description (some key) (.error e) scene_description dialogue style
      = "A dark, twisted manga panel showing: " ++ scene_description :=
  ⟨rfl, rfl⟩

/-- Claim C8, original statement refuted: with no credential the result
differs from the original scene description. -/
theorem C8_counterexample :
    generate_panel_description none (.error "x") "a scene" [] "dark" ≠ "a scene" := by
  decide

theorem nlpNormalize_ne_nil : ∀ chars : Option CharactersArg, nlpNormalize chars ≠ [] := by
  intro chars
  match chars with
  | none => simp [nlpNormalize]
  | some (.list []) => simp [nlpNormalize]
  | some (.list (a :: l)) => simp [nlpNormalize]
  | some (.str t) =>
    simp only [nlpNormalize]
    split_ifs
    · simp
    · simp only [ne_eq, List.map_eq_nil_iff]
      exact pySplitComma_ne_nil t

theorem nlpDialogue_character_mem (analysis : Analysis) (chars : List String)
    (profiles : List (String × CharacterProfile)) (stype : String) (j : Nat)
    (s : RState) (h : chars ≠ []) :
    ((nlpDialogue analysis chars profiles stype j s).1).character ∈ chars :=
  pyChoice_mem chars s h

theorem nlpScene_characters (prompt : String) (analysis : Analysis) (chars : List String)
    (profiles : List (String × CharacterProfile)) (n i : Nat) (s : RState)
    (h : chars ≠ []) :
    ∀ d ∈ (nlpScene prompt analysis chars profiles n i s).1.dialogue,
      d.character ∈ chars := by
  intro d hd
  simp only [nlpScene, nlpSceneBody] at hd
  exact mapState_mem (nlpDialogue analysis chars profiles (nlpSceneType n i))
    (fun dl => dl.character ∈ chars) _ _
    (fun j s' _ => nlpDialogue_character_mem analysis chars profiles _ j s' h) d hd

theorem generate_story_characters (prompt : String) (chars : Option CharactersArg)
    (s : RState) :
    ((generate_story prompt chars s).1).elim True (fun scenes =>
      ∀ sc ∈ scenes, ∀ d ∈ sc.dialogue, d.character ∈ nlpNormalize chars) := by
  have hne := nlpNormalize_ne_nil chars
  simp only [generate_story]
  cases hbb : (buildProfiles (nlpNormalize chars)
      (analyze_prompt prompt).primary_genre s).1 with
  | none => simp
  | some ps =>
    simp only [Option.elim_some]
    exact mapState_mem (nlpScene prompt (analyze_prompt prompt) (nlpNormalize chars) ps
        (pyRandint 8 12 (buildProfiles (nlpNormalize chars)
          (analyze_prompt prompt).primary_genre s).2).1)
      (fun sc => ∀ d ∈ sc.dialogue, d.character ∈ nlpNormalize chars) _ _
      (fun i s' _ => nlpScene_characters prompt _ _ ps _ i s' hne)

/-- The second-speaker pick of the templated scene builders stays in
the roster. -/
theorem pick2_mem (c0 : String) (rest : List String) (s : RState) :
    (pyChoice (if 0 < rest.length then rest else [c0]) s).1 ∈ c0 :: rest := by
  by_cases h : 0 < rest.length
  · rw [if_pos h]
    exact List.mem_cons_of_mem _ (pyChoice_mem rest s (by
      intro hn; rw [hn] at h; simp at h))
  · rw [if_neg h]
    have hm := pyChoice_mem [c0] s (by simp)
    simp only [List.mem_singleton] at hm
    simp [hm]

theorem pyChoice_singleton (c0 : String) (s : RState) : (pyChoice [c0] s).1 = c0 := by
  have h := pyChoice_mem [c0] s (by simp)
  simpa using h

theorem locScene_characters (c0 : String) (rest : List String) (setting : String)
    (u : Bool) (n i : Nat) (s : RState) :
    ∀ d ∈ (locScene (c0 :: rest) c0 rest setting u n i s).1.dialogue,
      d.character ∈ c0 :: rest := by
  have hne : (c0 :: rest) ≠ ([] : List String) := by simp
  simp only [locScene]
  split_ifs <;> intro d hd <;>
    simp only [List.cons_append, List.nil_append] at hd <;>
    fin_cases hd <;>
    (dsimp only;
     first
      | exact List.mem_cons_self _ _
      | exact List.mem_cons_of_mem _ (pyChoice_mem rest _ (List.length_pos.mp (by assumption)))
      | (rw [pyChoice_singleton]; exact List.mem_cons_self _ _)
      | exact pyChoice_mem (c0 :: rest) _ hne)

/-- The speakers the fallback unhinged generator may attribute lines
to: the roster plus the two fixed extra voices it hard-codes. -/
def fbAllowed (chars : List String) (ch : String) : Prop :=
  ch ∈ chars ∨ ch = "Narrator" ∨ ch = "Random Voice"

instance (chars : List String) (ch : String) : Decidable (fbAllowed chars ch) :=
  inferInstanceAs (Decidable (_ ∨ _))

theorem fbAfterExtra_characters (chars : List String) (sc : Scene) (s : RState)
    (hne : chars ≠ []) (hsc : ∀ d ∈ sc.dialogue, fbAllowed chars d.character) :
    ∀ d ∈ (fbAfterExtra chars sc s).1.dialogue, fbAllowed chars d.character := by
  simp only [fbAfterExtra]
  split_ifs
  · intro d hd
    dsimp only at hd
    rcases List.mem_append.mp hd with hin | hex
    · exact hsc d hin
    · rcases List.mem_singleton.mp hex with rfl
      exact Or.inl (pyChoice_mem chars _ hne)
  · exact hsc

theorem fbScene_characters (c0 : String) (rest : List String) (setting : String)
    (n i : Nat) (s : RState) :
    ∀ d ∈ (fbScene (c0 :: rest) c0 rest setting n i s).1.dialogue,
      fbAllowed (c0 :: rest) d.character := by
  have hne : (c0 :: rest) ≠ ([] : List String) := by simp
  simp only [fbScene]
  split_ifs <;>
    refine fbAfterExtra_characters _ _ _ hne ?_ <;> intro d hd <;> fin_cases hd <;>
    (dsimp only;
     first
      | exact Or.inl (List.mem_cons_self _ _)
      | exact Or.inl (List.mem_cons_of_mem _
          (pyChoice_mem rest _ (List.length_pos.mp (by assumption))))
      | (rw [pyChoice_singleton]; exact Or.inl (List.mem_cons_self _ _))
      | exact Or.inl (pyChoice_mem (c0 :: rest) _ hne)
      | exact Or.inr (Or.inl rfl)
      | exact Or.inr (Or.inr rfl))

theorem enhanced_local_story_characters (prompt : String) (chars : List String)
    (u : Bool) (s : RState) :
    ((enhanced_local_story prompt chars u s).1).elim True (fun st =>
      ∀ sc ∈ st.scenes, ∀ d ∈ sc.dialogue, d.character ∈ chars) := by
  cases chars with
  | nil => simp [enhanced_local_story]
  | cons c0 rest =>
    simp only [enhanced_local_story, Option.elim_some]
    exact mapState_mem _ (fun (sc : Scene) => ∀ d ∈ sc.dialogue, d.character ∈ c0 :: rest) _ _
      (fun i s' _ => locScene_characters c0 rest _ u _ i s')

theorem fallback_unhinged_characters (prompt : String) (chars : List String)
    (s : RState) :
    ((fallback_unhinged_story prompt (some chars) s).1).elim True (fun st =>
      ∀ sc ∈ st.scenes, ∀ d ∈ sc.dialogue, fbAllowed chars d.character) := by
  cases chars with
  | nil => simp [fallback_unhinged_story]
  | cons c0 rest =>
    simp only [fallback_unhinged_story, Option.elim_some]
    exact mapState_mem _ (fun (sc : Scene) => ∀ d ∈ sc.dialogue, fbAllowed (c0 :: rest) d.character) _ _
      (fun i s' _ => fbScene_characters c0 rest _ _ i s')

/-- Claim C2 (amended): on the NLP path every dialogue line is spoken by
a member of the normalized roster, and likewise on the local edgy path;
but on the no-credential unhinged fallback the guarantee is weaker —
each line is spoken by a roster member OR by one of the two hard-coded
extra voices, "Narrator" and "Random Voice", which are not drawn from
the characters list (see the counterexample). -/
theorem C2_theorem (prompt : String) (chars : Option CharactersArg)
    (chars2 chars3 : List String) (u : Bool) (s1 s2 s3 : RState) :
    (((generate_story prompt chars s1).1).elim True (fun (scenes : List Scene) =>
      ∀ sc ∈ scenes, ∀ d ∈ sc.dialogue, d.character ∈ nlpNormalize chars)) ∧
    (((enhanced_local_story prompt chars2 u s2).1).elim True (fun (st : Story) =>
      ∀ sc ∈ st.scenes, ∀ d ∈ sc.dialogue, d.character ∈ chars2)) ∧
    (((fallback_unhinged_story prompt (some chars3) s3).1).elim True (fun (st : Story) =>
      ∀ sc ∈ st.scenes, ∀ d ∈ sc.dialogue, fbAllowed chars3 d.character)) :=
  ⟨generate_story_characters prompt chars s1,
   enhanced_local_story_characters prompt chars2 u s2,
   fallback_unhinged_characters prompt chars3 s3⟩

/-- Claim C2, original statement refuted: the no-credential unhinged
fallback always gives its finale a line spoken by "Narrator", which is
not in the characters list — here evaluated on a concrete run. -/
theorem C2_counterexample :
    ∃ st, (fallback_unhinged_story "A revenge tale" (some ["Kazuo", "Miyuki"])
        ([] : RState)).1 = some st ∧
      ¬ ∀ sc ∈ st.scenes, ∀ d ∈ sc.dialogue, d.character ∈ ["Kazuo", "Miyuki"] :=
  ⟨_, rfl, by decide⟩

/-- Claim C4 (amended): `generate_manga_story` normalizes `characters`
as follows — an ABSENT (None) roster becomes the fixed 2-element
default and a comma-separated string is split and trimmed, but an empty
LIST is passed through unchanged, so generation can operate on an empty
characters list; in unhinged mode it then fails (the fallback and the
local generator both subscript the empty roster). -/
theorem C4_theorem (t : String) (l : List String) (prompt : String)
    (remote : Except String Story) (s : RState) :
    normalize_characters none = ["Protagonist", "Antagonist"] ∧
    normalize_characters (some (.str t)) = (pySplitComma t).map String.trim ∧
    normalize_characters (some (.list l)) = l ∧
    (generate_manga_story none remote prompt (some (.list [])) true s).1 = none := by
  refine ⟨rfl, rfl, rfl, ?_⟩
  simp [generate_manga_story, generate_unhinged_story, fallback_unhinged_story,
    enhanced_local_story, charsAsSeqOpt, normalize_characters]

/-- Claim C4, original statement refuted: an empty characters list is
NOT replaced by the default roster, and the unhinged generation then
raises on it instead of succeeding. -/
theorem C4_counterexample :
    normalize_characters (some (.list [])) = [] ∧
    (generate_manga_story none (.error "e") "p" (some (.list [])) true
      ([] : RState)).1 = none :=
  ⟨rfl, rfl⟩

theorem create_manga_pdf_panels_none_iff (ex : String → Bool) :
    ∀ panels : List Panel,
      create_manga_pdf_panels ex panels = none ↔ ∃ p ∈ panels, p.path = none := by
  intro panels
  induction panels with
  | nil => simp [create_manga_pdf_panels]
  | cons p rest ih =>
    cases hp : p.path with
    | none =>
      simp only [create_manga_pdf_panels, hp]
      exact iff_of_true trivial ⟨p, List.mem_cons_self _ _, hp⟩
    | some pa =>
      simp only [create_manga_pdf_panels, hp]
      by_cases hex : ex pa
      · rw [if_pos hex, Option.map_eq_none', ih]
        simp [hp]
      · rw [if_neg hex, ih]
        simp [hp]

theorem create_manga_cbz_images_none_iff (ex : String → Bool) :
    ∀ (panels : List Panel) (i : Nat),
      create_manga_cbz_images ex i panels = none ↔ ∃ p ∈ panels, p.path = none := by
  intro panels
  induction panels with
  | nil => intro i; simp [create_manga_cbz_images]
  | cons p rest ih =>
    intro i
    cases hp : p.path with
    | none =>
      simp only [create_manga_cbz_images, hp]
      exact iff_of_true trivial ⟨p, List.mem_cons_self _ _, hp⟩
    | some pa =>
      simp only [create_manga_cbz_images, hp]
      by_cases hex : ex pa
      · rw [if_pos hex, Option.map_eq_none', ih]
        simp [hp]
      · rw [if_neg hex, ih]
        simp [hp]

theorem create_manga_pdf_panels_filter (ex : String → Bool) :
    ∀ panels : List Panel,
      (create_manga_pdf_panels ex panels).elim True (fun l =>
        l = panels.filter (fun p => (p.path.map ex).getD false)) := by
  intro panels
  induction panels with
  | nil => simp [create_manga_pdf_panels]
  | cons p rest ih =>
    cases hp : p.path with
    | none => simp [create_manga_pdf_panels, hp]
    | some pa =>
      simp only [create_manga_pdf_panels, hp]
      by_cases hex : ex pa
      · rw [if_pos hex]
        cases hr : create_manga_pdf_panels ex rest with
        | none => simp
        | some l =>
          rw [hr] at ih
          simp only [Option.elim_some] at ih
          simp [List.filter_cons, hp, hex, ih]
      · rw [if_neg hex]
        cases hr : create_manga_pdf_panels ex rest with
        | none => simp [hr]
        | some l =>
          rw [hr] at ih
          simp only [Option.elim_some] at ih
          simp [hr, List.filter_cons, hp, hex, ih]

theorem create_manga_cbz_images_length (ex : String → Bool) :
    ∀ (panels : List Panel) (i : Nat),
      (create_manga_cbz_images ex i panels).elim True (fun l =>
        l.length = (panels.filter (fun p => (p.path.map ex).getD false)).length) := by
  intro panels
  induction panels with
  | nil => intro i; simp [create_manga_cbz_images]
  | cons p rest ih =>
    intro i
    cases hp : p.path with
    | none => simp [create_manga_cbz_images, hp]
    | some pa =>
      simp only [create_manga_cbz_images, hp]
      by_cases hex : ex pa
      · rw [if_pos hex]
        cases hr : create_manga_cbz_images ex (i + 1) rest with
        | none => simp
        | some l =>
          have h := ih (i + 1)
          rw [hr] at h
          simp only [Option.elim_some] at h
          simp [List.filter_cons, hp, hex, h]
      · rw [if_neg hex]
        cases hr : create_manga_cbz_images ex (i + 1) rest with
        | none => simp [hr]
        | some l =>
          have h := ih (i + 1)
          rw [hr] at h
          simp only [Option.elim_some] at h
          simp [hr, List.filter_cons, hp, hex, h]

/-- Claim C10: in both export loops the skip-missing behavior applies
only to panels whose path is a string naming a non-existent file (the
rendered panels are exactly the existence-filtered ones); a panel
record with no path key (path None) is not skipped — the existence
check raises TypeError and the whole export fails (`none`), and this
happens exactly when such a record is present. -/
theorem C10_theorem (ex : String → Bool) (panels : List Panel) :
    (create_manga_pdf_panels ex panels = none ↔ ∃ p ∈ panels, p.path = none) ∧
    (create_manga_cbz_images ex 0 panels = none ↔ ∃ p ∈ panels, p.path = none) ∧
    ((create_manga_pdf_panels ex panels).elim True (fun l =>
      l = panels.filter (fun p => (p.path.map ex).getD false))) ∧
    ((create_manga_cbz_images ex 0 panels).elim True (fun l =>
      l.length = (panels.filter (fun p => (p.path.map ex).getD false)).length)) :=
  ⟨create_manga_pdf_panels_none_iff ex panels,
   create_manga_cbz_images_none_iff ex panels 0,
   create_manga_pdf_panels_filter ex panels,
   create_manga_cbz_images_length ex panels 0⟩
